import Mathlib

/-!
Shallow embedding of the cursor-iteration and callback-streaming protocol of
the rustrdf client layer (files src/cursor/opened_cursor.rs and
src/streamer.rs), together with theorems settling the frozen claims about it.

The native engine is modelled as an oracle structure recording the response
of each native call; every embedded operation also returns the list of
native calls it performed, in order, so that call-order and frame properties
can be stated.
-/

namespace RustRDF

/-- Modelled from the spec: the typed error enum (`RDFStoreError`, defined in
the external rdf-store crate, not under src/). The spec taxonomy: a generic
engine-exception kind tagged with an operation description (produced by the
`database_call!` wrapper around every native call), a distinct
indexes-unavailable kind carrying the query, and an unknown kind. -/
inductive RDFStoreError where
  | databaseError (operation : String)
  | cannotGetAnyArgumentIndexes (query : String)
  | unknown
  deriving Repr, DecidableEq

/-- Outcome of running a piece of client code: a normal value, a typed error
returned to the caller, or a panic / undefined-behaviour outcome (a crash,
never a value the caller sees). -/
inductive RunResult (α : Type) where
  | ok (a : α)
  | err (e : RDFStoreError)
  | panicUB (msg : String)
  deriving Repr, DecidableEq

/-- The native calls the cursor code can make, used to record call traces. -/
inductive EngineCall where
  | cursorOpen
  | getArity
  | getArgumentsBuffer
  | getArgumentIndexes
  | cursorAdvance
  | getAnswerVariableName (index : Nat)
  deriving Repr, DecidableEq

/-- Oracle for the native cursor calls made while opening a cursor.
For each call, `none` means the engine raised an exception (a non-null
`CException`); `some` carries the output of a successful call.
`bufferResp`: `some none` is a null arguments-buffer pointer, and
`some (some mem)` is the readable memory at the returned pointer.
`indexesResp`: `some none` is a null index-table pointer, and
`some (some mem)` is the memory at the returned pointer, one value per
offset (the Rust code slices exactly `arity` entries from it).
`advanceResps`: response of each successive advance call; a successful
advance carries the new multiplicity and the overwritten contents of the
engine-owned arguments-buffer memory. -/
structure CursorEngine where
  openResp : Option Nat
  arityResp : Option Nat
  bufferResp : Option (Option (List Nat))
  indexesResp : Option (Option (Nat → Nat))
  advanceResps : List (Option (Nat × List Nat))
  varNames : Nat → Option String

/-- Engine-side mutable state backing an opened cursor: the current contents
of the arguments-buffer memory (overwritten on every advance) and the
remaining advance responses. -/
structure EngineState where
  bufferMem : List Nat
  advanceQueue : List (Option (Nat × List Nat))
  deriving Repr, DecidableEq

/-- The Rust-side fields of `OpenedCursor` (src/cursor/opened_cursor.rs).
`tx` and `cursor` stand for the `Arc<Transaction>` back-reference and the
`&Cursor` reference (identities only). `argumentsBufferLen` is the length of
the captured `&[u64]` slice; its contents live in `EngineState.bufferMem`
because the engine owns and overwrites that memory. `argument_indexes` is
the captured `&[u32]` slice, fixed once per open. -/
structure OpenedCursor where
  tx : Nat
  cursor : Nat
  arity : Nat
  argumentsBufferLen : Nat
  argument_indexes : List Nat
  deriving Repr, DecidableEq

/-- The while-loop of `OpenedCursor::arguments_buffer` on non-null memory:
visits cells in order, incrementing the count for each cell visited, and
breaks after counting the cell holding the first zero value. Returns `none`
when the readable region holds no zero: the Rust loop would keep reading
past the region (undefined behaviour). -/
def argumentsBufferLoop : List Nat → Option Nat
  | [] => none
  | x :: xs => if x = 0 then some 1 else (argumentsBufferLoop xs).map (· + 1)

/-- The count computed by the scan of `OpenedCursor::arguments_buffer`:
on a null pointer the loop guard fails immediately and the count stays 0;
otherwise the loop runs over the readable memory. -/
def argumentsBufferScanCount : Option (List Nat) → Option Nat
  | none => some 0
  | some mem => argumentsBufferLoop mem

/-- Embedding of `OpenedCursor::arguments_buffer`: performs the
getArgumentsBuffer native call, scans for the sentinel, then exposes
`count - 1` entries from the returned pointer. A zero count (null pointer)
makes `count - 1` underflow before the slice is formed; a region with no
sentinel makes the loop read past the readable memory. Both are panic /
undefined-behaviour outcomes, not typed errors. -/
def arguments_buffer (resp : Option (Option (List Nat))) : RunResult (List Nat) :=
  match resp with
  | none => .err (.databaseError "getting the arguments buffer")
  | some bufPtr =>
    match argumentsBufferScanCount bufPtr with
    | none => .panicUB "scan read past the readable region"
    | some count =>
      if count = 0 then .panicUB "count - 1 underflows"
      else .ok ((bufPtr.getD []).take (count - 1))

/-- Embedding of `OpenedCursor::argument_indexes`: performs the
getArgumentIndexes native call; a null pointer is the distinct
indexes-unavailable error carrying the query; otherwise the code slices
exactly `arity` entries from the returned pointer. -/
def argument_indexes_of (query : String) (resp : Option (Option (Nat → Nat)))
    (arity : Nat) : RunResult (List Nat) :=
  match resp with
  | none => .err (.databaseError "getting the argument-indexes")
  | some none => .err (.cannotGetAnyArgumentIndexes query)
  | some (some mem) => .ok ((List.range arity).map mem)

/-- Embedding of `OpenedCursor::new`: in order, the open call (yielding the
first-row multiplicity), the arity call, the arguments-buffer retrieval and
the argument-indexes retrieval; the first failing sub-step aborts with its
own error. Also returns the list of native calls performed, in order, and on
success the initial engine-side state. -/
def OpenedCursor.new (query : String) (txId cursorId : Nat) (eng : CursorEngine) :
    RunResult (OpenedCursor × Nat × EngineState) × List EngineCall :=
  match eng.openResp with
  | none => (.err (.databaseError "opening a cursor"), [.cursorOpen])
  | some multiplicity =>
    match eng.arityResp with
    | none => (.err (.databaseError "getting the arity"), [.cursorOpen, .getArity])
    | some arity =>
      match arguments_buffer eng.bufferResp with
      | .err e => (.err e, [.cursorOpen, .getArity, .getArgumentsBuffer])
      | .panicUB m => (.panicUB m, [.cursorOpen, .getArity, .getArgumentsBuffer])
      | .ok buf =>
        match argument_indexes_of query eng.indexesResp arity with
        | .err e =>
            (.err e, [.cursorOpen, .getArity, .getArgumentsBuffer, .getArgumentIndexes])
        | .panicUB m =>
            (.panicUB m, [.cursorOpen, .getArity, .getArgumentsBuffer, .getArgumentIndexes])
        | .ok idxs =>
            (.ok ({ tx := txId, cursor := cursorId, arity := arity,
                    argumentsBufferLen := buf.length, argument_indexes := idxs },
                  multiplicity,
                  { bufferMem := (eng.bufferResp.getD none).getD [],
                    advanceQueue := eng.advanceResps }),
             [.cursorOpen, .getArity, .getArgumentsBuffer, .getArgumentIndexes])

/-- Embedding of `OpenedCursor::resource_id`: looks `term_index` up in the
index table; a miss there is the hard `unknown` error. On a hit, reads the
arguments-buffer slice at the resolved slot: in range yields the value,
out of range yields `none` (explicit absence, not an error). `bufferMem` is
the current engine-side contents behind the captured slice. -/
def OpenedCursor.resource_id (oc : OpenedCursor) (bufferMem : List Nat)
    (term_index : Nat) : Except RDFStoreError (Option Nat) :=
  match oc.argument_indexes[term_index]? with
  | some argument_index =>
      if argument_index < oc.argumentsBufferLen then
        .ok (some (bufferMem.getD argument_index 0))
      else
        .ok none
  | none => .error .unknown

/-- Embedding of `OpenedCursor::advance`: one advance native call. The Rust
method writes no field of the struct; the engine overwrites the
arguments-buffer memory and reports the new multiplicity (0 = exhausted).
Returns the result, the (unchanged) cursor, the new engine state and the
trace of native calls performed. -/
def OpenedCursor.advance (oc : OpenedCursor) (st : EngineState) :
    RunResult Nat × OpenedCursor × EngineState × List EngineCall :=
  match st.advanceQueue with
  | [] => (.ok 0, oc, { st with advanceQueue := [] }, [.cursorAdvance])
  | none :: rest =>
      (.err (.databaseError "advancing the cursor"), oc,
       { st with advanceQueue := rest }, [.cursorAdvance])
  | some (multiplicity, newMem) :: rest =>
      (.ok multiplicity, oc,
       { bufferMem := newMem, advanceQueue := rest }, [.cursorAdvance])

/-- Embedding of `OpenedCursor::get_answer_variable_name`: one
getAnswerVariableName native call; takes the cursor immutably and mutates
nothing. -/
def OpenedCursor.get_answer_variable_name (oc : OpenedCursor) (eng : CursorEngine)
    (index : Nat) : RunResult String × List EngineCall :=
  match eng.varNames index with
  | none => (.err (.databaseError "getting a variable name"), [.getAnswerVariableName index])
  | some name => (.ok name, [.getAnswerVariableName index])

/-- Model of a borrowed C string value as produced by `ptr_to_cstr`: a byte
sequence whose final byte plays the role of the nul position. -/
structure CStrBytes where
  bytes : List Nat
  deriving Repr, DecidableEq

/-- Modelled from the spec: `ptr_to_cstr` lives in the cursor module file
that is not under src/. Per the spec, on each write callback the given byte
range (pointer plus byte count) is copied out of engine-owned memory
immediately and forwarded unchanged, so the function yields exactly the
`len` bytes at `data`. -/
def ptr_to_cstr (data : List Nat) (len : Nat) : Except RDFStoreError CStrBytes :=
  .ok ⟨data.take len⟩

/-- The `to_bytes_with_nul` view used by `write_function`: all bytes of the
C string value, none removed. -/
def CStrBytes.to_bytes_with_nul (s : CStrBytes) : List Nat := s.bytes

/-- Model of the caller-supplied sink (`W : Write`): records, in order, the
byte chunks accepted by its `write` method, counts its `write` and `flush`
calls, and fails exactly on the calls its failure schedules designate (so an
always-succeeding sink and a sink failing on its k-th call are both
instances). A successful `write` accepts the whole chunk. -/
structure MockWriter where
  written : List (List Nat)
  writeCalls : Nat
  flushCalls : Nat
  writeFails : Nat → Bool
  flushFails : Nat → Bool

/-- The write method of the sink: returns the accepted length on success
(here the full chunk) or an error on the scheduled failing calls. -/
def MockWriter.writeCall (w : MockWriter) (data : List Nat) :
    Except Unit Nat × MockWriter :=
  if w.writeFails w.writeCalls then
    (.error (), { w with writeCalls := w.writeCalls + 1 })
  else
    (.ok data.length,
     { w with written := w.written ++ [data], writeCalls := w.writeCalls + 1 })

/-- The flush method of the sink. -/
def MockWriter.flushCall (w : MockWriter) : Except Unit Unit × MockWriter :=
  if w.flushFails w.flushCalls then
    (.error (), { w with flushCalls := w.flushCalls + 1 })
  else
    (.ok (), { w with flushCalls := w.flushCalls + 1 })

/-- Embedding of `StreamerWithCallbacks::write` for `Streamer`: forwards the
bytes to the sink; `Ok(len)` yields `true`, and a sink error executes
`panic!` (a crash, not a `false` return and not a typed error). -/
def streamer_write (w : MockWriter) (data : List Nat) : RunResult Bool × MockWriter :=
  match w.writeCall data with
  | (.ok _len, w2) => (.ok true, w2)
  | (.error _, w2) => (.panicUB "could not write", w2)

/-- Embedding of `StreamerWithCallbacks::flush` for `Streamer`: flushes the
sink; success yields `true`, and a sink error executes `panic!`. -/
def streamer_flush (w : MockWriter) : RunResult Bool × MockWriter :=
  match w.flushCall with
  | (.ok _, w2) => (.ok true, w2)
  | (.error _, w2) => (.panicUB "Could not flush", w2)

/-- Embedding of `Streamer::write_function`, the C write callback: converts
the engine-given pointer and byte count through `ptr_to_cstr`, forwards
`to_bytes_with_nul` of the result to the sink via `streamer_write`; a
conversion error logs and returns `false` to the engine. -/
def write_function (w : MockWriter) (data : List Nat) (number_of_bytes_to_write : Nat) :
    RunResult Bool × MockWriter :=
  match ptr_to_cstr data number_of_bytes_to_write with
  | .ok c => streamer_write w c.to_bytes_with_nul
  | .error _ => (.ok false, w)

/-- Embedding of `Streamer::flush_function`, the C flush callback. -/
def flush_function (w : MockWriter) : RunResult Bool × MockWriter :=
  streamer_flush w

/-- One callback invocation the engine performs during the blocking
evaluate call: a flush, or a write of a byte chunk (the chunk is the byte
range the engine passes, its length the byte count). -/
inductive EngineCallbackCall where
  | flush
  | write (data : List Nat)
  deriving Repr, DecidableEq

/-- How a sequence of engine callback invocations ends: all invocations
returned `true`; some invocation returned `false` (the engine, receiving a
negative acknowledgment, stops serializing); or a callback panicked, so the
native call never returns normally. -/
inductive CallbacksOutcome where
  | completed (w : MockWriter)
  | stopped (w : MockWriter)
  | panicked (msg : String) (w : MockWriter)

/-- Whether the callback run panicked. -/
def CallbacksOutcome.isPanic : CallbacksOutcome → Bool
  | .panicked _ _ => true
  | _ => false

/-- The sink state after the callback run. -/
def CallbacksOutcome.writer : CallbacksOutcome → MockWriter
  | .completed w => w
  | .stopped w => w
  | .panicked _ w => w

/-- Runs the callback invocations, in order, through the
registered callback entry points, stopping at the first `false`
acknowledgment or panic. -/
def runCallbacks (w : MockWriter) : List EngineCallbackCall → CallbacksOutcome
  | [] => .completed w
  | .flush :: rest =>
    match flush_function w with
    | (.ok true, w2) => runCallbacks w2 rest
    | (.ok false, w2) => .stopped w2
    | (.err _, w2) => .stopped w2
    | (.panicUB m, w2) => .panicked m w2
  | .write data :: rest =>
    match write_function w data data.length with
    | (.ok true, w2) => runCallbacks w2 rest
    | (.ok false, w2) => .stopped w2
    | (.err _, w2) => .stopped w2
    | (.panicUB m, w2) => .panicked m w2

/-- Client-side events of `Streamer::evaluate`, used to state lifetime and
ordering properties of the callback context. -/
inductive StreamerEvent where
  | createRefToSelf
  | createOutputStream
  | nativeEvaluateCall
  | releaseRefToSelf
  | releaseOutputStream
  | inspectEvaluateResult
  deriving Repr, DecidableEq

/-- Oracle for one native evaluate call: the callback invocations the
engine performs while serializing, and the result of the call itself
(`none` = engine exception, `some n` = success with `n` solutions). A
`false` acknowledgment from a callback is treated conservatively: the
engine stops and the call reports failure. -/
structure EvalEngine where
  callbacks : List EngineCallbackCall
  evalResult : Option Nat

/-- Embedding of `Streamer::evaluate`: boxes the context and the callback
registration, performs the single blocking native evaluate call (during
which the engine drives the callbacks), then explicitly drops both boxes,
and only afterwards inspects the call result (the `result?` line). A panic
inside a callback unwinds out of the native call, so the drop lines are
never reached on that path. Returns the outcome (final sink state and
solution count on success) and the ordered client-side event list. -/
def Streamer.evaluate (w : MockWriter) (eng : EvalEngine) :
    RunResult (MockWriter × Nat) × List StreamerEvent :=
  let pre : List StreamerEvent :=
    [.createRefToSelf, .createOutputStream, .nativeEvaluateCall]
  match runCallbacks w eng.callbacks with
  | .panicked m _ => (.panicUB m, pre)
  | .stopped _ =>
      (.err (.databaseError "evaluating a statement"),
       pre ++ [.releaseRefToSelf, .releaseOutputStream, .inspectEvaluateResult])
  | .completed w2 =>
      match eng.evalResult with
      | none =>
          (.err (.databaseError "evaluating a statement"),
           pre ++ [.releaseRefToSelf, .releaseOutputStream, .inspectEvaluateResult])
      | some n =>
          (.ok (w2, n),
           pre ++ [.releaseRefToSelf, .releaseOutputStream, .inspectEvaluateResult])

/-- The byte chunks of the write invocations among the callback
invocations, in order: the serialized payload is their concatenation. -/
def writeChunksOf (calls : List EngineCallbackCall) : List (List Nat) :=
  calls.filterMap fun c =>
    match c with
    | .write data => some data
    | .flush => none

/-- A concrete well-behaved engine oracle used to instantiate hypotheses:
arity 2, arguments-buffer memory holding two values before the zero
sentinel, identity index table, two further rows. -/
def sampleEngine : CursorEngine where
  openResp := some 2
  arityResp := some 2
  bufferResp := some (some [7, 8, 0, 99])
  indexesResp := some (some fun j => j)
  advanceResps := [some (1, [5, 6, 0, 99]), some (3, [9, 4, 0, 99])]
  varNames := fun _ => some "v"

/-- The cursor produced by opening `sampleEngine`. -/
def sampleOpened : OpenedCursor where
  tx := 0
  cursor := 0
  arity := 2
  argumentsBufferLen := 2
  argument_indexes := [0, 1]

/-- The engine-side state right after opening `sampleEngine`. -/
def sampleState : EngineState where
  bufferMem := [7, 8, 0, 99]
  advanceQueue := [some (1, [5, 6, 0, 99]), some (3, [9, 4, 0, 99])]

/-- The sample engine with a null argument-index table. -/
def nullIdxEngine : CursorEngine :=
  { sampleEngine with indexesResp := some none }

/-- A sink that never fails, starting empty. -/
def okSink : MockWriter where
  written := []
  writeCalls := 0
  flushCalls := 0
  writeFails := fun _ => false
  flushFails := fun _ => false

/-- A sink whose write method returns an error on its second call. -/
def failingSink : MockWriter where
  written := []
  writeCalls := 0
  flushCalls := 0
  writeFails := fun k => decide (k = 1)
  flushFails := fun _ => false

/-- An engine evaluation emitting two write chunks and one flush, then
reporting two solutions. -/
def sampleEval : EvalEngine where
  callbacks := [.write [10, 20], .flush, .write [30]]
  evalResult := some 2

/-- An engine evaluation emitting two write chunks, used to exercise the
failing sink: the sink fails on the second chunk. -/
def panicEval : EvalEngine where
  callbacks := [.write [10, 20], .write [30]]
  evalResult := some 2

/-! ## Theorems -/

/-- When the first zero value of the readable memory sits at position `i`,
the scan loop counts exactly the `i + 1` cells up to and including it. -/
theorem argumentsBufferLoop_first_zero (mem : List Nat) (i : Nat)
    (hi : mem[i]? = some 0) (hfirst : ∀ j, j < i → ¬ mem[j]? = some 0) :
    argumentsBufferLoop mem = some (i + 1) := by
  induction mem generalizing i with
  | nil => simp at hi
  | cons x xs ih =>
    cases i with
    | zero =>
      simp only [List.getElem?_cons_zero, Option.some.injEq] at hi
      simp [argumentsBufferLoop, hi]
    | succ j =>
      have hx : ¬ x = 0 := by
        have h0 := hfirst 0 (Nat.succ_pos j)
        simpa using h0
      have hj : xs[j]? = some 0 := by simpa using hi
      have hfirst2 : ∀ k, k < j → ¬ xs[k]? = some 0 := by
        intro k hk
        have := hfirst (k + 1) (Nat.succ_lt_succ hk)
        simpa using this
      simp [argumentsBufferLoop, hx, ih j hj hfirst2]

/-- If some cell of the readable memory holds zero, the scan loop
terminates with a positive count. -/
theorem argumentsBufferLoop_of_mem_zero (mem : List Nat) :
    0 ∈ mem → ∃ c, argumentsBufferLoop mem = some c ∧ 1 ≤ c := by
  induction mem with
  | nil => intro hm; simp at hm
  | cons x xs ih =>
    intro hm
    by_cases hx : x = 0
    · exact ⟨1, by simp [argumentsBufferLoop, hx], le_refl 1⟩
    · have hxs : 0 ∈ xs := by
        rcases List.mem_cons.1 hm with h | h
        · exact absurd h.symm hx
        · exact h
      obtain ⟨c, hc, h1⟩ := ih hxs
      exact ⟨c + 1, by simp [argumentsBufferLoop, hx, hc], by omega⟩

/-- If no cell of the readable memory holds zero, the scan loop runs off
the end of the region. -/
theorem argumentsBufferLoop_of_no_zero (mem : List Nat) :
    ¬ 0 ∈ mem → argumentsBufferLoop mem = none := by
  induction mem with
  | nil => intro _; rfl
  | cons x xs ih =>
    intro hm
    have hx : ¬ x = 0 := fun h => hm (by simp [h])
    have hxs : ¬ 0 ∈ xs := fun h => hm (List.mem_cons_of_mem x h)
    simp [argumentsBufferLoop, hx, ih hxs]

/-- C3: the arguments-buffer retrieval scans forward counting entries until
the first zero-valued slot, never reads past the sentinel (the scan result
is already determined by the cells up to and including the first zero,
whatever lies beyond), and the exposed slice excludes the sentinel: it is
exactly the entries strictly before the first zero, so its length is the
index of the first zero. -/
theorem arguments_buffer_scan_spec (mem : List Nat) (i : Nat)
    (hi : mem[i]? = some 0) (hfirst : ∀ j, j < i → ¬ mem[j]? = some 0) :
    argumentsBufferLoop mem = some (i + 1) ∧
    (∀ junk : List Nat, argumentsBufferLoop (mem.take (i + 1) ++ junk) = some (i + 1)) ∧
    arguments_buffer (some (some mem)) = .ok (mem.take i) ∧
    (mem.take i).length = i := by
  have hlen : i < mem.length := by
    rcases List.getElem?_eq_some.1 hi with ⟨h, _⟩
    exact h
  have h1 := argumentsBufferLoop_first_zero mem i hi hfirst
  have htk : (mem.take (i + 1)).length = i + 1 := by
    simp [List.length_take]
    omega
  refine ⟨h1, ?_, ?_, ?_⟩
  · intro junk
    apply argumentsBufferLoop_first_zero
    · rw [List.getElem?_append, if_pos (by omega), List.getElem?_take,
          if_pos (Nat.lt_succ_self i)]
      exact hi
    · intro j hj
      rw [List.getElem?_append, if_pos (by omega), List.getElem?_take,
          if_pos (by omega)]
      exact hfirst j hj
  · simp [arguments_buffer, argumentsBufferScanCount, h1]
  · simp [List.length_take]
    omega

/-- Witness for C3 at a concrete buffer memory with the first zero at
index 2. -/
theorem arguments_buffer_scan_spec_witness :
    argumentsBufferLoop [7, 8, 0, 99] = some (2 + 1) ∧
    (∀ junk : List Nat,
        argumentsBufferLoop ([7, 8, 0, 99].take (2 + 1) ++ junk) = some (2 + 1)) ∧
    arguments_buffer (some (some [7, 8, 0, 99])) = .ok ([7, 8, 0, 99].take 2) ∧
    ([7, 8, 0, 99].take 2).length = 2 :=
  arguments_buffer_scan_spec [7, 8, 0, 99] 2 (by decide) (by decide)

/-- C10: the sentinel scan is total only when the returned pointer is
non-null and some slot holds zero. A null pointer makes the loop body never
execute, the count stays 0 and the slice-length computation `count - 1`
underflows (a panic or undefined-behaviour outcome, not a typed error); a
non-null region with a zero yields a positive count and a well-defined
slice; a non-null region without any zero makes the loop read past the
readable region. -/
theorem arguments_buffer_null_and_totality :
    argumentsBufferScanCount none = some 0 ∧
    arguments_buffer (some none) = .panicUB "count - 1 underflows" ∧
    (∀ mem : List Nat, 0 ∈ mem →
        ∃ c, argumentsBufferScanCount (some mem) = some c ∧ 1 ≤ c ∧
          arguments_buffer (some (some mem)) = .ok (mem.take (c - 1))) ∧
    (∀ mem : List Nat, ¬ 0 ∈ mem →
        argumentsBufferScanCount (some mem) = none ∧
        arguments_buffer (some (some mem)) =
          .panicUB "scan read past the readable region") := by
  refine ⟨rfl, rfl, ?_, ?_⟩
  · intro mem hm
    obtain ⟨c, hc, h1⟩ := argumentsBufferLoop_of_mem_zero mem hm
    have hc0 : ¬ c = 0 := by omega
    refine ⟨c, by simpa [argumentsBufferScanCount] using hc, h1, ?_⟩
    simp [arguments_buffer, argumentsBufferScanCount, hc, hc0]
  · intro mem hm
    have h := argumentsBufferLoop_of_no_zero mem hm
    exact ⟨by simpa [argumentsBufferScanCount] using h,
           by simp [arguments_buffer, argumentsBufferScanCount, h]⟩

/-- Witness for C10 at a region with a zero and a region without one. -/
theorem arguments_buffer_null_and_totality_witness :
    (∃ c, argumentsBufferScanCount (some [7, 0]) = some c ∧ 1 ≤ c ∧
        arguments_buffer (some (some [7, 0])) = .ok ([7, 0].take (c - 1))) ∧
    (argumentsBufferScanCount (some [7, 8]) = none ∧
        arguments_buffer (some (some [7, 8])) =
          .panicUB "scan read past the readable region") :=
  ⟨arguments_buffer_null_and_totality.2.2.1 [7, 0] (by decide),
   arguments_buffer_null_and_totality.2.2.2 [7, 8] (by decide)⟩

/-- C2: `resource_id` is total and never panics. Under the construction
invariant that the index table has length `arity`: a term index at or past
the arity is the hard `unknown` error; a term index below the arity always
resolves through the index table, and then an in-buffer slot yields the
value while an out-of-buffer slot yields the explicit absence `none`, which
is a successful result, not an error. -/
theorem resource_id_total_spec (oc : OpenedCursor) (bufferMem : List Nat) (i : Nat)
    (hlen : oc.argument_indexes.length = oc.arity) :
    (oc.arity ≤ i → oc.resource_id bufferMem i = .error .unknown) ∧
    (i < oc.arity →
      ∃ slot, oc.argument_indexes[i]? = some slot ∧
        (slot < oc.argumentsBufferLen →
            oc.resource_id bufferMem i = .ok (some (bufferMem.getD slot 0))) ∧
        (oc.argumentsBufferLen ≤ slot →
            oc.resource_id bufferMem i = .ok none)) := by
  constructor
  · intro h
    have hnone : oc.argument_indexes[i]? = none := List.getElem?_eq_none (by omega)
    simp [OpenedCursor.resource_id, hnone]
  · intro h
    have hi : i < oc.argument_indexes.length := by omega
    have hsome : oc.argument_indexes[i]? = some oc.argument_indexes[i] :=
      List.getElem?_eq_getElem hi
    refine ⟨oc.argument_indexes[i], hsome, ?_, ?_⟩
    · intro hs
      simp [OpenedCursor.resource_id, hsome, hs]
    · intro hs
      have hs2 : ¬ oc.argument_indexes[i] < oc.argumentsBufferLen := by omega
      simp [OpenedCursor.resource_id, hsome, hs2]

/-- Witness for C2 at the sample cursor, probing the in-range column 1 and
the out-of-range column 3. -/
theorem resource_id_total_spec_witness :
    (sampleOpened.argument_indexes.length = sampleOpened.arity ∧
      (sampleOpened.arity ≤ 3 →
          sampleOpened.resource_id [5, 6] 3 = .error .unknown)) ∧
    (sampleOpened.argument_indexes.length = sampleOpened.arity ∧
      (1 < sampleOpened.arity →
        ∃ slot, sampleOpened.argument_indexes[1]? = some slot ∧
          (slot < sampleOpened.argumentsBufferLen →
              sampleOpened.resource_id [5, 6] 1 = .ok (some ([5, 6].getD slot 0))) ∧
          (sampleOpened.argumentsBufferLen ≤ slot →
              sampleOpened.resource_id [5, 6] 1 = .ok none))) :=
  ⟨⟨rfl, (resource_id_total_spec sampleOpened [5, 6] 3 rfl).1⟩,
   ⟨rfl, (resource_id_total_spec sampleOpened [5, 6] 1 rfl).2⟩⟩

/-- A successful argument-indexes retrieval produces a slice of exactly
`arity` entries. -/
theorem argument_indexes_of_ok_length (query : String)
    (resp : Option (Option (Nat → Nat))) (arity : Nat) (idxs : List Nat)
    (h : argument_indexes_of query resp arity = .ok idxs) :
    idxs.length = arity := by
  rcases resp with _ | (_ | mem)
  · simp [argument_indexes_of] at h
  · simp [argument_indexes_of] at h
  · simp [argument_indexes_of] at h
    rw [← h]
    simp

/-- Inversion of a successful cursor open: every field of the returned
cursor, the returned multiplicity and the call trace are determined by the
engine responses. -/
theorem new_ok_inv (query : String) (txId cId : Nat) (eng : CursorEngine)
    (oc : OpenedCursor) (mult : Nat) (st : EngineState) (tr : List EngineCall)
    (h : OpenedCursor.new query txId cId eng = (.ok (oc, mult, st), tr)) :
    ∃ m0 a0 buf idxs,
      eng.openResp = some m0 ∧ eng.arityResp = some a0 ∧
      arguments_buffer eng.bufferResp = .ok buf ∧
      argument_indexes_of query eng.indexesResp a0 = .ok idxs ∧
      oc = { tx := txId, cursor := cId, arity := a0,
             argumentsBufferLen := buf.length, argument_indexes := idxs } ∧
      mult = m0 ∧
      tr = [.cursorOpen, .getArity, .getArgumentsBuffer, .getArgumentIndexes] := by
  unfold OpenedCursor.new at h
  split at h
  · simp at h
  next m0 hm0 =>
    split at h
    · simp at h
    next a0 ha0 =>
      split at h
      · simp at h
      · simp at h
      next buf hbuf =>
        split at h
        · simp at h
        · simp at h
        next idxs hidx =>
          simp only [Prod.mk.injEq, RunResult.ok.injEq] at h
          obtain ⟨⟨hoc, hmult, hst⟩, htr⟩ := h
          exact ⟨m0, a0, buf, idxs, hm0, ha0, hbuf, hidx,
                 hoc.symm, hmult.symm, htr.symm⟩

/-- C5: `argument_indexes.len() == arity` holds for every successfully
constructed `OpenedCursor` and is preserved afterwards: `advance` returns
the cursor with every Rust-side field unchanged (in particular both
`argument_indexes` and `arity`), and `resource_id` and
`get_answer_variable_name` take the cursor immutably, mutating nothing, so
the invariant holds for the lifetime of the cursor. -/
theorem argument_indexes_length_invariant :
    (∀ (query : String) (txId cId : Nat) (eng : CursorEngine)
        (oc : OpenedCursor) (mult : Nat) (st : EngineState) (tr : List EngineCall),
        OpenedCursor.new query txId cId eng = (.ok (oc, mult, st), tr) →
        oc.argument_indexes.length = oc.arity) ∧
    (∀ (oc : OpenedCursor) (st : EngineState),
        ((OpenedCursor.advance oc st).2.1).argument_indexes = oc.argument_indexes ∧
        ((OpenedCursor.advance oc st).2.1).arity = oc.arity) := by
  constructor
  · intro query txId cId eng oc mult st tr h
    obtain ⟨m0, a0, buf, idxs, _, _, _, hidx, hoc, _, _⟩ :=
      new_ok_inv query txId cId eng oc mult st tr h
    subst hoc
    simpa using argument_indexes_of_ok_length query eng.indexesResp a0 idxs hidx
  · intro oc st
    rcases hq : st.advanceQueue with _ | ⟨(_ | ⟨m, newMem⟩), rest⟩ <;>
      simp [OpenedCursor.advance, hq]

/-- Witness for C5: the invariant at the concretely opened sample cursor
and its preservation across a concrete advance. -/
theorem argument_indexes_length_invariant_witness :
    sampleOpened.argument_indexes.length = sampleOpened.arity ∧
    ((OpenedCursor.advance sampleOpened sampleState).2.1).argument_indexes =
      sampleOpened.argument_indexes :=
  ⟨argument_indexes_length_invariant.1 "q" 0 0 sampleEngine sampleOpened 2
      sampleState [.cursorOpen, .getArity, .getArgumentsBuffer, .getArgumentIndexes]
      rfl,
   (argument_indexes_length_invariant.2 sampleOpened sampleState).1⟩

/-- C6: a null argument-index pointer during open fails with the distinct
indexes-unavailable error kind carrying the query, which is a different
kind from the generic engine-exception kind (for every operation tag) and
from the unknown kind. -/
theorem null_index_table_distinct_error (query : String) (txId cId : Nat)
    (eng : CursorEngine) (mult arity : Nat) (buf : List Nat)
    (h1 : eng.openResp = some mult) (h2 : eng.arityResp = some arity)
    (h3 : arguments_buffer eng.bufferResp = .ok buf)
    (h4 : eng.indexesResp = some none) :
    (OpenedCursor.new query txId cId eng).1 =
      .err (.cannotGetAnyArgumentIndexes query) ∧
    (∀ op : String,
        RDFStoreError.cannotGetAnyArgumentIndexes query ≠ .databaseError op) ∧
    RDFStoreError.cannotGetAnyArgumentIndexes query ≠ .unknown := by
  refine ⟨?_, ?_, by simp⟩
  · simp [OpenedCursor.new, h1, h2, h3, argument_indexes_of, h4]
  · intro op
    simp

/-- Witness for C6 at the sample engine with a null index table. -/
theorem null_index_table_distinct_error_witness :
    (OpenedCursor.new "q" 0 0 nullIdxEngine).1 =
      .err (.cannotGetAnyArgumentIndexes "q") ∧
    (∀ op : String,
        RDFStoreError.cannotGetAnyArgumentIndexes "q" ≠ .databaseError op) ∧
    RDFStoreError.cannotGetAnyArgumentIndexes "q" ≠ .unknown :=
  null_index_table_distinct_error "q" 0 0 nullIdxEngine 2 2 [7, 8]
    rfl rfl rfl rfl

/-- C7: opening a cursor performs exactly the open, arity,
arguments-buffer and argument-indexes native calls, in that order; on
success it returns, unchanged, the multiplicity yielded by the open call
alongside the constructed cursor; the first failing sub-step aborts the
open with the error of that sub-step, no cursor is constructed, and the
trace stops at the failing call. -/
theorem open_protocol_order (query : String) (txId cId : Nat) (eng : CursorEngine) :
    (eng.openResp = none →
        OpenedCursor.new query txId cId eng =
          (.err (.databaseError "opening a cursor"), [.cursorOpen])) ∧
    (∀ mult, eng.openResp = some mult →
      (eng.arityResp = none →
          OpenedCursor.new query txId cId eng =
            (.err (.databaseError "getting the arity"), [.cursorOpen, .getArity])) ∧
      (∀ arity, eng.arityResp = some arity →
        (∀ e, arguments_buffer eng.bufferResp = .err e →
            OpenedCursor.new query txId cId eng =
              (.err e, [.cursorOpen, .getArity, .getArgumentsBuffer])) ∧
        (∀ buf, arguments_buffer eng.bufferResp = .ok buf →
          (∀ e, argument_indexes_of query eng.indexesResp arity = .err e →
              OpenedCursor.new query txId cId eng =
                (.err e,
                 [.cursorOpen, .getArity, .getArgumentsBuffer, .getArgumentIndexes])) ∧
          (∀ idxs, argument_indexes_of query eng.indexesResp arity = .ok idxs →
              OpenedCursor.new query txId cId eng =
                (.ok ({ tx := txId, cursor := cId, arity := arity,
                        argumentsBufferLen := buf.length,
                        argument_indexes := idxs },
                      mult,
                      { bufferMem := (eng.bufferResp.getD none).getD [],
                        advanceQueue := eng.advanceResps }),
                 [.cursorOpen, .getArity, .getArgumentsBuffer,
                  .getArgumentIndexes]))))) := by
  refine ⟨?_, ?_⟩
  · intro h
    simp [OpenedCursor.new, h]
  · intro mult hm
    refine ⟨?_, ?_⟩
    · intro h
      simp [OpenedCursor.new, hm, h]
    · intro arity ha
      refine ⟨?_, ?_⟩
      · intro e hb
        simp [OpenedCursor.new, hm, ha, hb]
      · intro buf hb
        refine ⟨?_, ?_⟩
        · intro e hx
          simp [OpenedCursor.new, hm, ha, hb, hx]
        · intro idxs hx
          simp [OpenedCursor.new, hm, ha, hb, hx]

/-- Witness for C7: the full successful protocol at the sample engine. -/
theorem open_protocol_order_witness :
    OpenedCursor.new "q" 0 0 sampleEngine =
      (.ok (sampleOpened, 2, sampleState),
       [.cursorOpen, .getArity, .getArgumentsBuffer, .getArgumentIndexes]) :=
  ((((open_protocol_order "q" 0 0 sampleEngine).2 2 rfl).2 2 rfl).2 [7, 8]
      rfl).2 [0, 1] rfl

/-- C9: `advance` performs exactly one native call (the advance call, so
neither the arity nor the index table is re-fetched), changes no Rust-side
field of the cursor, and only the engine-side buffer contents change; it
returns the multiplicity of the new row, an exhausted engine reporting 0. -/
theorem advance_frame_spec (oc : OpenedCursor) (st : EngineState) :
    (OpenedCursor.advance oc st).2.1 = oc ∧
    (OpenedCursor.advance oc st).2.2.2 = [.cursorAdvance] ∧
    (¬ EngineCall.getArity ∈ (OpenedCursor.advance oc st).2.2.2 ∧
     ¬ EngineCall.getArgumentIndexes ∈ (OpenedCursor.advance oc st).2.2.2) ∧
    (st.advanceQueue = [] →
        (OpenedCursor.advance oc st).1 = .ok 0 ∧
        (OpenedCursor.advance oc st).2.2.1.bufferMem = st.bufferMem) ∧
    (∀ mult newMem rest, st.advanceQueue = some (mult, newMem) :: rest →
        (OpenedCursor.advance oc st).1 = .ok mult ∧
        (OpenedCursor.advance oc st).2.2.1.bufferMem = newMem) ∧
    (∀ rest, st.advanceQueue = none :: rest →
        (OpenedCursor.advance oc st).1 =
          .err (.databaseError "advancing the cursor")) := by
  rcases hq : st.advanceQueue with _ | ⟨(_ | ⟨m, newMem⟩), rest⟩ <;>
    simp [OpenedCursor.advance, hq]

/-- Witness for C9: a concrete advance on the sample state, delivering the
next multiplicity and the overwritten buffer contents. -/
theorem advance_frame_spec_witness :
    (OpenedCursor.advance sampleOpened sampleState).2.1 = sampleOpened ∧
    ((OpenedCursor.advance sampleOpened sampleState).1 = .ok 1 ∧
     (OpenedCursor.advance sampleOpened sampleState).2.2.1.bufferMem =
       [5, 6, 0, 99]) :=
  ⟨(advance_frame_spec sampleOpened sampleState).1,
   (advance_frame_spec sampleOpened sampleState).2.2.2.2.1 1 [5, 6, 0, 99]
     [some (3, [9, 4, 0, 99])] rfl⟩

/-- Running the callbacks against a sink that never fails completes, and the
sink accepts exactly the write chunks of the engine, appended in order. -/
theorem runCallbacks_all_ok (calls : List EngineCallbackCall) :
    ∀ w : MockWriter,
      (∀ n, w.writeFails n = false) → (∀ n, w.flushFails n = false) →
      ∃ w2, runCallbacks w calls = .completed w2 ∧
        w2.written = w.written ++ writeChunksOf calls ∧
        (∀ n, w2.writeFails n = false) ∧ (∀ n, w2.flushFails n = false) := by
  induction calls with
  | nil =>
    intro w hw hf
    exact ⟨w, rfl, by simp [writeChunksOf], hw, hf⟩
  | cons c rest ih =>
    intro w hw hf
    cases c with
    | flush =>
      have hstep : flush_function w =
          (.ok true, { w with flushCalls := w.flushCalls + 1 }) := by
        simp [flush_function, streamer_flush, MockWriter.flushCall, hf w.flushCalls]
      obtain ⟨w2, h1, h2, h3, h4⟩ := ih { w with flushCalls := w.flushCalls + 1 } hw hf
      refine ⟨w2, ?_, ?_, h3, h4⟩
      · simp [runCallbacks, hstep, h1]
      · simpa [writeChunksOf] using h2
    | write data =>
      have hstep : write_function w data data.length =
          (.ok true,
           { w with written := w.written ++ [data],
                    writeCalls := w.writeCalls + 1 }) := by
        simp [write_function, ptr_to_cstr, CStrBytes.to_bytes_with_nul,
              streamer_write, MockWriter.writeCall, hw w.writeCalls]
      obtain ⟨w2, h1, h2, h3, h4⟩ :=
        ih { w with written := w.written ++ [data],
                    writeCalls := w.writeCalls + 1 } hw hf
      refine ⟨w2, ?_, ?_, h3, h4⟩
      · simp [runCallbacks, hstep, h1]
      · rw [h2]
        simp [writeChunksOf]

/-- C1: for a sink that never fails, a successful Streamer evaluation
passes to the sink, across all write-callback invocations, exactly the byte
chunks the engine emitted, in the order the engine emitted them: the chunks
the sink accepts are the write chunks of the engine, and the concatenated bytes
the sink observes are exactly the concatenated serialized payload — nothing
added, dropped or reordered by the callback bridge. -/
theorem streamer_payload_exact (w : MockWriter) (eng : EvalEngine) (n : Nat)
    (hw : ∀ k, w.writeFails k = false) (hf : ∀ k, w.flushFails k = false)
    (hres : eng.evalResult = some n) :
    ∃ w2, Streamer.evaluate w eng =
        (.ok (w2, n),
         [.createRefToSelf, .createOutputStream, .nativeEvaluateCall,
          .releaseRefToSelf, .releaseOutputStream, .inspectEvaluateResult]) ∧
      w2.written = w.written ++ writeChunksOf eng.callbacks ∧
      w2.written.flatten =
        w.written.flatten ++ (writeChunksOf eng.callbacks).flatten := by
  obtain ⟨w2, h1, h2, _, _⟩ := runCallbacks_all_ok eng.callbacks w hw hf
  refine ⟨w2, ?_, h2, ?_⟩
  · simp [Streamer.evaluate, h1, hres]
  · rw [h2]
    simp

/-- Witness for C1: a concrete evaluation delivering the chunks 10 20 and
then 30 to an initially empty, never-failing sink. -/
theorem streamer_payload_exact_witness :
    ∃ w2, Streamer.evaluate okSink sampleEval =
        (.ok (w2, 2),
         [.createRefToSelf, .createOutputStream, .nativeEvaluateCall,
          .releaseRefToSelf, .releaseOutputStream, .inspectEvaluateResult]) ∧
      w2.written = okSink.written ++ writeChunksOf sampleEval.callbacks ∧
      w2.written.flatten =
        okSink.written.flatten ++ (writeChunksOf sampleEval.callbacks).flatten :=
  streamer_payload_exact okSink sampleEval 2 (fun _ => rfl) (fun _ => rfl) rfl

/-- C8: whenever the native evaluate call returns (that is, no callback
panicked), the client-side events are exactly: create the context box,
create the callback-registration box, perform the single native evaluate
call, release the context, release the registration, and only then inspect
the evaluate result — identically on the success and the failure path, so
each box is created immediately before the call, released exactly once
after it, never touched in between, and the result conversion to the typed
error happens after the release. -/
theorem evaluate_context_lifecycle (w : MockWriter) (eng : EvalEngine)
    (h : (runCallbacks w eng.callbacks).isPanic = false) :
    (Streamer.evaluate w eng).2 =
      [.createRefToSelf, .createOutputStream, .nativeEvaluateCall,
       .releaseRefToSelf, .releaseOutputStream, .inspectEvaluateResult] ∧
    ((Streamer.evaluate w eng).2.count .releaseRefToSelf = 1 ∧
     (Streamer.evaluate w eng).2.count .releaseOutputStream = 1) ∧
    (eng.evalResult = none →
        (Streamer.evaluate w eng).1 =
          .err (.databaseError "evaluating a statement")) ∧
    (∀ (n2 : Nat) (w2 : MockWriter),
        (Streamer.evaluate w eng).1 = .ok (w2, n2) → eng.evalResult = some n2) := by
  rcases hrc : runCallbacks w eng.callbacks with w2 | w2 | ⟨m, w2⟩
  · rcases hres : eng.evalResult with _ | n
    · refine ⟨by simp [Streamer.evaluate, hrc, hres], ⟨?_, ?_⟩, ?_, ?_⟩ <;>
        simp [Streamer.evaluate, hrc, hres]
    · refine ⟨by simp [Streamer.evaluate, hrc, hres], ⟨?_, ?_⟩, ?_, ?_⟩ <;>
        simp [Streamer.evaluate, hrc, hres]
  · refine ⟨by simp [Streamer.evaluate, hrc], ⟨?_, ?_⟩, ?_, ?_⟩ <;>
      simp [Streamer.evaluate, hrc]
  · rw [hrc] at h
    simp [CallbacksOutcome.isPanic] at h

/-- Witness for C8: the concrete successful evaluation of the sample
engine against the never-failing sink. -/
theorem evaluate_context_lifecycle_witness :
    (Streamer.evaluate okSink sampleEval).2 =
      [.createRefToSelf, .createOutputStream, .nativeEvaluateCall,
       .releaseRefToSelf, .releaseOutputStream, .inspectEvaluateResult] ∧
    (((Streamer.evaluate okSink sampleEval).2.count .releaseRefToSelf = 1 ∧
      (Streamer.evaluate okSink sampleEval).2.count .releaseOutputStream = 1)) ∧
    (sampleEval.evalResult = none →
        (Streamer.evaluate okSink sampleEval).1 =
          .err (.databaseError "evaluating a statement")) ∧
    (∀ (n2 : Nat) (w2 : MockWriter),
        (Streamer.evaluate okSink sampleEval).1 = .ok (w2, n2) →
        sampleEval.evalResult = some n2) :=
  evaluate_context_lifecycle okSink sampleEval rfl

/-- C4 (failing input): when the sink reports a write failure on its second
call, the `StreamerWithCallbacks::write` implementation executes `panic!`
inside the extern C write callback: the evaluation ends in a panic /
undefined-behaviour outcome instead of a typed error, the drop lines after
the native call are never reached (no release events), and only the bytes
before the failing call were delivered to the sink. -/
theorem streamer_sink_failure_panics :
    Streamer.evaluate failingSink panicEval =
      (.panicUB "could not write",
       [.createRefToSelf, .createOutputStream, .nativeEvaluateCall]) ∧
    (runCallbacks failingSink panicEval.callbacks).writer.written = [[10, 20]] ∧
    streamer_write { failingSink with writeCalls := 1 } [30] =
      (.panicUB "could not write",
       { failingSink with writeCalls := 2 }) := by
  refine ⟨rfl, rfl, ?_⟩
  simp [streamer_write, MockWriter.writeCall, failingSink]

end RustRDF
